import Mathlib

/-!
Shallow embedding of the pending-sampling-request subsystem of the
goose-server crate (files `state.rs`, `sampling_handler.rs`,
`routes/sampling.rs`).

The mutable state of `AppState` that this subsystem touches is
- `pending_sampling_requests : Mutex<HashMap<String, (SamplingRequest, oneshot::Sender<bool>)>>`
- `sampling_request_tx : broadcast::Sender<SamplingRequest>`

We model it as a pure record `AppState` and each async method as a pure
state-passing function.  The `HashMap` is modelled as an association list
with at most one entry per key (insert removes any previous binding, as
`HashMap::insert` does).  A `tokio::sync::oneshot` channel is modelled by
an explicit cell recording whether a value was sent and whether either
handle was dropped; channels are allocated by appending to a list and a
channel handle is the index of its cell.  The `tokio::sync::broadcast`
channel is modelled by the append-only log of published values; a
subscriber is a cursor into that log equal to the log length at
subscription time, and it observes the suffix of the log past its cursor
(receiver lag — the bounded 100-slot buffer dropping the oldest items for
a slow receiver — is not modelled: receivers are assumed to keep pace, as
in the spec's sequential test scenarios).
-/

deriving instance DecidableEq for Except

/-- The `rmcp::model::CreateMessageRequestParam` payload.  The subsystem
treats it as opaque data (never inspected or mutated), so it is modelled
as an abstract wrapper. -/
structure CreateMessageRequestParam where
  payload : String
deriving DecidableEq, Repr

/-- `SamplingRequest` from `routes/sampling.rs`. -/
structure SamplingRequest where
  id : String
  extension_name : String
  params : CreateMessageRequestParam
deriving DecidableEq, Repr

/-- State of one `tokio::sync::oneshot` channel cell. -/
structure OneshotChannel where
  sent : Option Bool
  senderDropped : Bool
  receiverDropped : Bool
deriving DecidableEq, Repr

/-- A freshly created oneshot channel: no value sent, both handles live. -/
def freshOneshot : OneshotChannel := { sent := none, senderDropped := false, receiverDropped := false }

/-- The error a `oneshot::Receiver` yields when the sender was dropped
without sending (`tokio::sync::oneshot::error::RecvError`). -/
inductive OneshotRecvError where
  | closed
deriving DecidableEq, Repr

/-- `rx.await` on a oneshot receiver: yields the sent value if one was
sent, a closed error if the sender was dropped without sending, and keeps
waiting (`none`) otherwise. -/
def oneshotRecv (c : OneshotChannel) : Option (Except OneshotRecvError Bool) :=
  match c.sent with
  | some b => some (.ok b)
  | none => if c.senderDropped then some (.error .closed) else none

/-- `tx.send b` on a oneshot sender: stores the value and succeeds if the
receiver is still live, otherwise fails without storing anything.  The
boolean result is the success flag (`Result::is_ok` of `send`). -/
def oneshotSend (c : OneshotChannel) (b : Bool) : OneshotChannel × Bool :=
  if c.receiverDropped then (c, false) else ({ c with sent := some b }, true)

/-- Look up a key in an association list (first matching entry). -/
def lookupKey (key : String) : List (String × α) → Option α
  | [] => none
  | (k, v) :: rest => if k == key then some v else lookupKey key rest

/-- Remove every entry with the given key. -/
def eraseKey (key : String) : List (String × α) → List (String × α)
  | [] => []
  | (k, v) :: rest => if k == key then eraseKey key rest else (k, v) :: eraseKey key rest

/-- `HashMap::insert`: bind `key` to `v`, replacing any previous binding. -/
def insertKey (key : String) (v : α) (l : List (String × α)) : List (String × α) :=
  eraseKey key l ++ [(key, v)]

/-- Replace the channel cell at index `i` using `f` (no-op when out of range). -/
def modifyChannel (l : List OneshotChannel) (i : Nat) (f : OneshotChannel → OneshotChannel) :
    List OneshotChannel :=
  match l[i]? with
  | some c => l.set i (f c)
  | none => l

/-- Mark the sender half of channel `i` as dropped (the `oneshot::Sender`
was destroyed, e.g. because the map entry holding it was removed or
overwritten). -/
def dropSenderAt (l : List OneshotChannel) (i : Nat) : List OneshotChannel :=
  modifyChannel l i (fun c => { c with senderDropped := true })

/-- The sampling-relevant state of `AppState` (`state.rs`):
`pending` models `pending_sampling_requests` (id to request and sender
handle), `channels` holds every oneshot channel cell ever allocated, and
`published` is the append-only log of the `sampling_request_tx` broadcast
channel. -/
structure AppState where
  pending : List (String × SamplingRequest × Nat)
  channels : List OneshotChannel
  published : List SamplingRequest
deriving DecidableEq, Repr

/-- `AppState::new`: empty pending map, no broadcast traffic yet. -/
def emptyAppState : AppState := { pending := [], channels := [], published := [] }

/-- Body of `AppState::add_sampling_request`: create a fresh oneshot
channel, insert `(request, tx)` under `request.id` (dropping the sender of
any entry this replaces, as `HashMap::insert` drops the old value), then
broadcast the request.  Returns the new state and the receiver handle. -/
def addSamplingRequestCore (s : AppState) (request : SamplingRequest) : AppState × Nat :=
  let ch := s.channels.length
  let channelsAfterDrop :=
    match lookupKey request.id s.pending with
    | some (_, oldCh) => dropSenderAt s.channels oldCh
    | none => s.channels
  ({ pending := insertKey request.id (request, ch) s.pending,
     channels := channelsAfterDrop ++ [freshOneshot],
     published := s.published ++ [request] }, ch)

/-- `AppState::add_sampling_request`, with its `anyhow::Result` signature:
the body never takes an error path, so the result is always `ok`. -/
def addSamplingRequest (s : AppState) (request : SamplingRequest) :
    Except String (AppState × Nat) :=
  .ok (addSamplingRequestCore s request)

/-- `AppState::respond_to_sampling_request`: remove the entry for
`request_id`; if one existed, send `approved` on its channel (ignoring the
send result) and succeed, otherwise fail with the not-found error. -/
def respondToSamplingRequest (s : AppState) (request_id : String) (approved : Bool) :
    AppState × Except String Unit :=
  match lookupKey request_id s.pending with
  | some (_, ch) =>
      ({ s with
          pending := eraseKey request_id s.pending,
          channels := modifyChannel s.channels ch (fun c => (oneshotSend c approved).1) },
       .ok ())
  | none =>
      ({ s with pending := eraseKey request_id s.pending },
       .error ("Sampling request not found: " ++ request_id))

/-- `AppState::get_pending_sampling_requests`: the requests currently in
the pending map. -/
def getPendingSamplingRequests (s : AppState) : List SamplingRequest :=
  s.pending.map (fun p => p.2.1)

/-- `AppState::subscribe_to_sampling_requests`: a new broadcast receiver,
modelled as a cursor at the current end of the publish log. -/
def subscribeToSamplingRequests (s : AppState) : Nat :=
  s.published.length

/-- The notifications a receiver with the given cursor observes in state
`s`: everything published after it subscribed. -/
def receiverEvents (s : AppState) (cursor : Nat) : List SamplingRequest :=
  s.published.drop cursor

/-- The waiter abandons the wait: the `oneshot::Receiver` for channel `i`
is dropped. -/
def dropReceiverAt (s : AppState) (i : Nat) : AppState :=
  { s with channels := modifyChannel s.channels i (fun c => { c with receiverDropped := true }) }

/-- The producer for channel `i` is destroyed without sending (entry
overwritten, store torn down, process shutdown). -/
def dropProducerAt (s : AppState) (i : Nat) : AppState :=
  { s with channels := dropSenderAt s.channels i }

/-- What the waiter of channel `ch` observes in state `s` when it awaits
the receiver. -/
def recvDecision (s : AppState) (ch : Nat) : Option (Except OneshotRecvError Bool) :=
  match s.channels[ch]? with
  | some c => oneshotRecv c
  | none => none

/-- The sampling callback installed by `AppState::get_agent` maps the
receiver outcome: a delivered boolean is returned as-is, a closed channel
becomes the `Approval channel closed` error. -/
def samplingCallbackOutcome (recvResult : Option (Except OneshotRecvError Bool)) :
    Option (Except String Bool) :=
  match recvResult with
  | none => none
  | some (.ok approved) => some (.ok approved)
  | some (.error _) => some (.error "Approval channel closed")

/-- The `rmcp::ServiceError` variants `ServerSamplingHandler` produces
while waiting for a decision. -/
inductive ServiceError where
  | unexpectedResponse
  | cancelled (reason : Option String)
deriving DecidableEq, Repr

/-- The decision phase of `ServerSamplingHandler::handle_create_message`
(`sampling_handler.rs` lines 55-63): a receive error becomes
`UnexpectedResponse`, a `false` decision becomes the `Cancelled` error
with the rejection reason, and a `true` decision lets the handler proceed
to the provider call (`ok ()`). -/
def handleCreateMessageDecision (recvResult : Option (Except OneshotRecvError Bool)) :
    Option (Except ServiceError Unit) :=
  match recvResult with
  | none => none
  | some (.error _) => some (.error .unexpectedResponse)
  | some (.ok approved) =>
      if approved then some (.ok ())
      else some (.error (.cancelled (some "User rejected sampling request")))

/-- The error items a `BroadcastStream` can yield (a lagged receiver). -/
inductive BroadcastStreamRecvError where
  | lagged (missed : Nat)
deriving DecidableEq, Repr

/-- One server-sent-event frame, as built by `stream_sampling_requests`. -/
def sseFrame (json : String) : String :=
  "data: " ++ json ++ "\n\n"

/-- The `filter_map` body of `stream_sampling_requests`
(`routes/sampling.rs` lines 117-138) applied to a finite prefix of the
broadcast stream: a received request that serializes is emitted as one SSE
frame, a serialization failure is logged and skipped, and a broadcast
stream error is logged and skipped.  `serialize` stands for
`serde_json::to_string`, whose success or failure on each payload is
external to this subsystem. -/
def streamSamplingRequests (serialize : SamplingRequest → Except String String)
    (events : List (Except BroadcastStreamRecvError SamplingRequest)) : List String :=
  events.filterMap fun item =>
    match item with
    | .ok request =>
        match serialize request with
        | .ok json => some (sseFrame json)
        | .error _ => none
    | .error _ => none

/-- Operations that mutate the sampling state, for reasoning about
interleavings of registrations and resolutions. -/
inductive SamplingOp where
  | register (request : SamplingRequest)
  | resolve (request_id : String) (approved : Bool)
deriving DecidableEq, Repr

/-- Run a sequence of sampling operations from a state. -/
def runOps (s : AppState) : List SamplingOp → AppState
  | [] => s
  | SamplingOp.register r :: rest => runOps (addSamplingRequestCore s r).1 rest
  | SamplingOp.resolve id b :: rest => runOps (respondToSamplingRequest s id b).1 rest

/-- The requests a sequence of operations publishes, in order. -/
def opsPublished : List SamplingOp → List SamplingRequest
  | [] => []
  | SamplingOp.register r :: rest => r :: opsPublished rest
  | SamplingOp.resolve _ _ :: rest => opsPublished rest

theorem lookupKey_eraseKey_append (key : String) (l rest : List (String × α)) :
    lookupKey key (eraseKey key l ++ rest) = lookupKey key rest := by
  induction l with
  | nil => rfl
  | cons p t ih =>
      obtain ⟨k, v⟩ := p
      by_cases h : (k == key) = true
      · simp only [eraseKey, h, if_true, ih]
      · simp only [eraseKey, h, if_false, Bool.false_eq_true, List.cons_append, lookupKey, ih]

theorem lookupKey_insertKey_self (key : String) (v : α) (l : List (String × α)) :
    lookupKey key (insertKey key v l) = some v := by
  unfold insertKey
  rw [lookupKey_eraseKey_append]
  simp [lookupKey]

theorem lookupKey_eraseKey_self (key : String) (l : List (String × α)) :
    lookupKey key (eraseKey key l) = none := by
  have h := lookupKey_eraseKey_append key l []
  simpa using h

theorem eraseKey_of_lookupKey_none (key : String) (l : List (String × α))
    (h : lookupKey key l = none) : eraseKey key l = l := by
  induction l with
  | nil => rfl
  | cons p t ih =>
      obtain ⟨k, v⟩ := p
      by_cases hk : (k == key) = true
      · simp only [lookupKey, hk, if_true] at h
        exact Option.noConfusion h
      · simp only [lookupKey, hk, Bool.false_eq_true, if_false] at h
        simp only [eraseKey, hk, Bool.false_eq_true, if_false, ih h]

theorem length_modifyChannel (l : List OneshotChannel) (i : Nat)
    (f : OneshotChannel → OneshotChannel) : (modifyChannel l i f).length = l.length := by
  unfold modifyChannel
  cases h : l[i]? <;> simp

theorem getElem?_modifyChannel_self (l : List OneshotChannel) (i : Nat)
    (f : OneshotChannel → OneshotChannel) (c : OneshotChannel) (h : l[i]? = some c) :
    (modifyChannel l i f)[i]? = some (f c) := by
  have hlt : i < l.length := by
    by_contra hge
    rw [List.getElem?_eq_none (Nat.le_of_not_lt hge)] at h
    exact Option.noConfusion h
  unfold modifyChannel
  rw [h]
  exact List.getElem?_set_eq_of_lt _ hlt

theorem addCore_snd (s : AppState) (r : SamplingRequest) :
    (addSamplingRequestCore s r).2 = s.channels.length := rfl

theorem addCore_pending (s : AppState) (r : SamplingRequest) :
    (addSamplingRequestCore s r).1.pending =
      insertKey r.id (r, s.channels.length) s.pending := rfl

theorem addCore_published (s : AppState) (r : SamplingRequest) :
    (addSamplingRequestCore s r).1.published = s.published ++ [r] := rfl

theorem addCore_channels_fresh (s : AppState) (r : SamplingRequest) :
    (addSamplingRequestCore s r).1.channels[s.channels.length]? = some freshOneshot := by
  show ((match lookupKey r.id s.pending with
        | some (_, oldCh) => dropSenderAt s.channels oldCh
        | none => s.channels) ++ [freshOneshot])[s.channels.length]? = some freshOneshot
  cases h : lookupKey r.id s.pending with
  | none =>
      simp only
      exact List.getElem?_concat_length _ _
  | some p =>
      obtain ⟨_, oldCh⟩ := p
      simp only
      have hlen : (dropSenderAt s.channels oldCh).length = s.channels.length := by
        unfold dropSenderAt
        exact length_modifyChannel _ _ _
      rw [← hlen]
      exact List.getElem?_concat_length _ _

theorem respond_eq_of_lookup_some (s : AppState) (id : String) (b : Bool)
    (req : SamplingRequest) (ch : Nat) (h : lookupKey id s.pending = some (req, ch)) :
    respondToSamplingRequest s id b =
      ({ s with
          pending := eraseKey id s.pending,
          channels := modifyChannel s.channels ch (fun c => (oneshotSend c b).1) },
       .ok ()) := by
  unfold respondToSamplingRequest
  rw [h]

theorem respond_eq_of_lookup_none (s : AppState) (id : String) (b : Bool)
    (h : lookupKey id s.pending = none) :
    respondToSamplingRequest s id b = (s, .error ("Sampling request not found: " ++ id)) := by
  unfold respondToSamplingRequest
  rw [h, eraseKey_of_lookupKey_none _ _ h]

theorem lookup_addCore_self (s : AppState) (r : SamplingRequest) :
    lookupKey r.id (addSamplingRequestCore s r).1.pending =
      some (r, s.channels.length) := by
  rw [addCore_pending]
  exact lookupKey_insertKey_self _ _ _

theorem recv_after_register_resolve (s : AppState) (r : SamplingRequest) (b : Bool) :
    recvDecision (respondToSamplingRequest (addSamplingRequestCore s r).1 r.id b).1
      (addSamplingRequestCore s r).2 = some (.ok b) := by
  rw [respond_eq_of_lookup_some (addSamplingRequestCore s r).1 r.id b r
    s.channels.length (lookup_addCore_self s r), addCore_snd]
  unfold recvDecision
  rw [getElem?_modifyChannel_self _ _ _ _ (addCore_channels_fresh s r)]
  rfl

/-- C1: registering a request `r` and then resolving `r.id` with decision `b`
succeeds and delivers exactly `b` on the decision channel returned by the
registration. -/
theorem registerThenResolveDeliversDecision (s : AppState) (r : SamplingRequest) (b : Bool) :
    (respondToSamplingRequest (addSamplingRequestCore s r).1 r.id b).2 = .ok () ∧
    recvDecision (respondToSamplingRequest (addSamplingRequestCore s r).1 r.id b).1
      (addSamplingRequestCore s r).2 = some (.ok b) := by
  have hresp := respond_eq_of_lookup_some (addSamplingRequestCore s r).1 r.id b r
    s.channels.length (lookup_addCore_self s r)
  exact ⟨by rw [hresp], recv_after_register_resolve s r b⟩

/-- C3: registering a request once and resolving its id twice: the first
resolve succeeds and removes the entry, and the second resolve fails with
the not-found error instead of delivering again. -/
theorem resolveTwiceSecondNotFound (s : AppState) (r : SamplingRequest) (b1 b2 : Bool) :
    (respondToSamplingRequest (addSamplingRequestCore s r).1 r.id b1).2 = .ok () ∧
    lookupKey r.id
      (respondToSamplingRequest (addSamplingRequestCore s r).1 r.id b1).1.pending = none ∧
    (respondToSamplingRequest
      (respondToSamplingRequest (addSamplingRequestCore s r).1 r.id b1).1 r.id b2).2 =
      .error ("Sampling request not found: " ++ r.id) := by
  have hresp := respond_eq_of_lookup_some (addSamplingRequestCore s r).1 r.id b1 r
    s.channels.length (lookup_addCore_self s r)
  have hnone : lookupKey r.id
      (respondToSamplingRequest (addSamplingRequestCore s r).1 r.id b1).1.pending = none := by
    rw [hresp]
    exact lookupKey_eraseKey_self _ _
  refine ⟨by rw [hresp], hnone, ?_⟩
  rw [respond_eq_of_lookup_none _ _ _ hnone]

/-- C4: resolving an id that is not in the pending map fails with the
not-found error and leaves the state exactly as it was. -/
theorem resolveUnknownIdNotFoundNoSideEffect (s : AppState) (id : String) (b : Bool)
    (h : lookupKey id s.pending = none) :
    respondToSamplingRequest s id b = (s, .error ("Sampling request not found: " ++ id)) :=
  respond_eq_of_lookup_none s id b h

/-- Witness for C4 at a concrete input. -/
theorem resolveUnknownIdNotFoundNoSideEffect_witness :
    lookupKey "z" emptyAppState.pending = none ∧
    respondToSamplingRequest emptyAppState "z" true =
      (emptyAppState, .error ("Sampling request not found: " ++ "z")) :=
  ⟨rfl, resolveUnknownIdNotFoundNoSideEffect emptyAppState "z" true rfl⟩

/-- C5: if the producer of a registered request's decision channel is
destroyed without sending, the waiter observes the channel-closed failure:
it does not keep waiting, never sees a fabricated boolean, the agent
callback surfaces the `Approval channel closed` error, and the server
handler surfaces `UnexpectedResponse`. -/
theorem droppedProducerObservedAsChannelClosed (s : AppState) (r : SamplingRequest) :
    recvDecision (dropProducerAt (addSamplingRequestCore s r).1 (addSamplingRequestCore s r).2)
      (addSamplingRequestCore s r).2 = some (.error .closed) ∧
    recvDecision (dropProducerAt (addSamplingRequestCore s r).1 (addSamplingRequestCore s r).2)
      (addSamplingRequestCore s r).2 ≠ none ∧
    (∀ b : Bool,
      recvDecision (dropProducerAt (addSamplingRequestCore s r).1 (addSamplingRequestCore s r).2)
        (addSamplingRequestCore s r).2 ≠ some (.ok b)) ∧
    samplingCallbackOutcome
      (recvDecision (dropProducerAt (addSamplingRequestCore s r).1 (addSamplingRequestCore s r).2)
        (addSamplingRequestCore s r).2) = some (.error "Approval channel closed") ∧
    handleCreateMessageDecision
      (recvDecision (dropProducerAt (addSamplingRequestCore s r).1 (addSamplingRequestCore s r).2)
        (addSamplingRequestCore s r).2) = some (.error .unexpectedResponse) := by
  have hrecv : recvDecision
      (dropProducerAt (addSamplingRequestCore s r).1 (addSamplingRequestCore s r).2)
      (addSamplingRequestCore s r).2 = some (.error .closed) := by
    rw [addCore_snd]
    unfold recvDecision dropProducerAt dropSenderAt
    rw [getElem?_modifyChannel_self _ _ _ _ (addCore_channels_fresh s r)]
    rfl
  refine ⟨hrecv, ?_, ?_, ?_, ?_⟩
  · rw [hrecv]; exact fun hc => Option.noConfusion hc
  · intro b hc
    rw [hrecv] at hc
    exact Except.noConfusion (Option.some.inj hc)
  · rw [hrecv]; rfl
  · rw [hrecv]; rfl

/-- C10: if the waiter dropped its receiver before resolution, resolving
the id still succeeds, removes the entry, and the failed send is ignored
(the decision is simply not stored). -/
theorem resolveAfterWaiterGoneStillSucceeds (s : AppState) (r : SamplingRequest) (b : Bool) :
    (respondToSamplingRequest
      (dropReceiverAt (addSamplingRequestCore s r).1 (addSamplingRequestCore s r).2) r.id b).2 =
      .ok () ∧
    lookupKey r.id
      (respondToSamplingRequest
        (dropReceiverAt (addSamplingRequestCore s r).1 (addSamplingRequestCore s r).2)
        r.id b).1.pending = none := by
  have hlook : lookupKey r.id
      (dropReceiverAt (addSamplingRequestCore s r).1 (addSamplingRequestCore s r).2).pending =
      some (r, s.channels.length) := lookup_addCore_self s r
  have hresp := respond_eq_of_lookup_some
    (dropReceiverAt (addSamplingRequestCore s r).1 (addSamplingRequestCore s r).2) r.id b r
    s.channels.length hlook
  refine ⟨by rw [hresp], ?_⟩
  rw [hresp]
  exact lookupKey_eraseKey_self _ _

theorem published_respond (s : AppState) (id : String) (b : Bool) :
    (respondToSamplingRequest s id b).1.published = s.published := by
  cases h : lookupKey id s.pending with
  | none => rw [respond_eq_of_lookup_none _ _ _ h]
  | some p =>
      obtain ⟨req, ch⟩ := p
      rw [respond_eq_of_lookup_some _ _ _ req ch h]

theorem runOps_published (ops : List SamplingOp) :
    ∀ s : AppState, (runOps s ops).published = s.published ++ opsPublished ops := by
  induction ops with
  | nil => intro s; simp [runOps, opsPublished]
  | cons op rest ih =>
      intro s
      cases op with
      | register r =>
          show (runOps (addSamplingRequestCore s r).1 rest).published = _
          rw [ih, addCore_published, opsPublished, List.append_assoc]
          rfl
      | resolve id b =>
          show (runOps (respondToSamplingRequest s id b).1 rest).published = _
          rw [ih, published_respond, opsPublished]

theorem mem_opsPublished (x : SamplingRequest) (ops : List SamplingOp)
    (h : x ∈ opsPublished ops) : SamplingOp.register x ∈ ops := by
  induction ops with
  | nil => exact absurd h (List.not_mem_nil x)
  | cons op rest ih =>
      cases op with
      | register r =>
          rcases List.mem_cons.mp h with heq | htail
          · exact List.mem_cons.mpr (Or.inl (by rw [heq]))
          · exact List.mem_cons.mpr (Or.inr (ih htail))
      | resolve id b => exact List.mem_cons.mpr (Or.inr (ih h))

/-- C7: a receiver subscribed before request `x` is registered observes a
notification for `x` under any continuation of the run; a receiver
subscribed after `x` was published never observes `x` unless some later
operation registers `x` again. -/
theorem subscriberSeesOnlyLaterRegistrations (s : AppState) (x : SamplingRequest)
    (ops : List SamplingOp) :
    x ∈ receiverEvents (runOps (addSamplingRequestCore s x).1 ops)
      (subscribeToSamplingRequests s) ∧
    ((∀ r : SamplingRequest, SamplingOp.register r ∈ ops → r ≠ x) →
      x ∉ receiverEvents (runOps (addSamplingRequestCore s x).1 ops)
        (subscribeToSamplingRequests (addSamplingRequestCore s x).1)) := by
  have hpub : (runOps (addSamplingRequestCore s x).1 ops).published =
      (s.published ++ [x]) ++ opsPublished ops := by
    rw [runOps_published, addCore_published]
  constructor
  · unfold receiverEvents subscribeToSamplingRequests
    rw [hpub, List.append_assoc, List.drop_left]
    exact List.mem_cons.mpr (Or.inl rfl)
  · intro hno hmem
    unfold receiverEvents subscribeToSamplingRequests at hmem
    rw [hpub, addCore_published, List.drop_left] at hmem
    exact hno x (mem_opsPublished x ops hmem) rfl

/-- Witness for C7 at a concrete input (the continuation resolves an
unrelated id, so the second receiver sees nothing). -/
theorem subscriberSeesOnlyLaterRegistrations_witness :
    { id := "x", extension_name := "e", params := { payload := "p" } } ∈
      receiverEvents
        (runOps (addSamplingRequestCore emptyAppState
          { id := "x", extension_name := "e", params := { payload := "p" } }).1
          [SamplingOp.resolve "x" true])
        (subscribeToSamplingRequests emptyAppState) ∧
    ((∀ r : SamplingRequest, SamplingOp.register r ∈ [SamplingOp.resolve "x" true] →
        r ≠ { id := "x", extension_name := "e", params := { payload := "p" } }) →
      { id := "x", extension_name := "e", params := { payload := "p" } } ∉
        receiverEvents
          (runOps (addSamplingRequestCore emptyAppState
            { id := "x", extension_name := "e", params := { payload := "p" } }).1
            [SamplingOp.resolve "x" true])
          (subscribeToSamplingRequests (addSamplingRequestCore emptyAppState
            { id := "x", extension_name := "e", params := { payload := "p" } }).1)) :=
  subscriberSeesOnlyLaterRegistrations emptyAppState
    { id := "x", extension_name := "e", params := { payload := "p" } }
    [SamplingOp.resolve "x" true]

/-- C8: in the live feed, a received request that serializes is emitted as
exactly one `data: <json>` double-newline frame, and a request whose
serialization fails is skipped without terminating the stream: the frames
of the events before and after it are delivered unchanged. -/
theorem streamEmitsFrameOrSkips (serialize : SamplingRequest → Except String String)
    (pre post : List (Except BroadcastStreamRecvError SamplingRequest))
    (x : SamplingRequest) :
    streamSamplingRequests serialize (pre ++ .ok x :: post) =
      streamSamplingRequests serialize pre ++
        (match serialize x with
          | .ok json => [sseFrame json]
          | .error _ => []) ++
        streamSamplingRequests serialize post := by
  have hsplit : pre ++ .ok x :: post = (pre ++ [.ok x]) ++ post := by simp
  unfold streamSamplingRequests
  rw [hsplit, List.filterMap_append, List.filterMap_append, List.append_assoc]
  cases h : serialize x with
  | ok json => simp [List.filterMap, h]
  | error e => simp [List.filterMap, h]

/-- C9: starting from the empty state, registering requests with ids `a`
and `b` and then resolving `a` leaves exactly the request with id `b`
pending. -/
theorem listAfterRegisterABResolveA (ra rb : SamplingRequest) (b : Bool)
    (ha : ra.id = "a") (hb : rb.id = "b") :
    getPendingSamplingRequests
      (respondToSamplingRequest
        (addSamplingRequestCore (addSamplingRequestCore emptyAppState ra).1 rb).1 "a" b).1 =
      [rb] := by
  obtain ⟨ida, exta, pa⟩ := ra
  obtain ⟨idb, extb, pb⟩ := rb
  simp only at ha hb
  subst ha hb
  rfl

/-- Witness for C9 at a concrete input. -/
theorem listAfterRegisterABResolveA_witness :
    ({ id := "a", extension_name := "e1", params := { payload := "p1" } } : SamplingRequest).id =
      "a" ∧
    ({ id := "b", extension_name := "e2", params := { payload := "p2" } } : SamplingRequest).id =
      "b" ∧
    getPendingSamplingRequests
      (respondToSamplingRequest
        (addSamplingRequestCore
          (addSamplingRequestCore emptyAppState
            { id := "a", extension_name := "e1", params := { payload := "p1" } }).1
          { id := "b", extension_name := "e2", params := { payload := "p2" } }).1 "a" true).1 =
      [{ id := "b", extension_name := "e2", params := { payload := "p2" } }] :=
  ⟨rfl, rfl,
    listAfterRegisterABResolveA
      { id := "a", extension_name := "e1", params := { payload := "p1" } }
      { id := "b", extension_name := "e2", params := { payload := "p2" } } true rfl rfl⟩

/-- A state whose pending map already binds id `a`. -/
def dupRequestOld : SamplingRequest :=
  { id := "a", extension_name := "ext1", params := { payload := "p1" } }

/-- A second request that reuses an existing id `a`. -/
def dupRequestNew : SamplingRequest :=
  { id := "a", extension_name := "ext2", params := { payload := "p2" } }

/-- The store after registering `dupRequestOld` from the empty state. -/
def dupState : AppState := (addSamplingRequestCore emptyAppState dupRequestOld).1

/-- C2 counterexample: registering a request whose id is already present
does not fail with a duplicate-id error: `add_sampling_request` returns ok
and the new entry replaces the old one. -/
theorem duplicateRegistrationDoesNotFail :
    lookupKey "a" dupState.pending = some (dupRequestOld, 0) ∧
    (addSamplingRequest dupState dupRequestNew).isOk = true ∧
    addSamplingRequest dupState dupRequestNew =
      .ok ((addSamplingRequestCore dupState dupRequestNew).1, 1) ∧
    lookupKey "a" (addSamplingRequestCore dupState dupRequestNew).1.pending =
      some (dupRequestNew, 1) := by
  decide

/-- C2 amended: registration never fails; when the id is already bound,
the new entry replaces the old one and the replaced entry's producer is
dropped, so its waiter observes the channel-closed failure. -/
theorem duplicateRegistrationOverwrites (s : AppState) (r oldReq : SamplingRequest)
    (oldCh : Nat) (c : OneshotChannel)
    (hold : lookupKey r.id s.pending = some (oldReq, oldCh))
    (hch : s.channels[oldCh]? = some c) (hsent : c.sent = none) :
    addSamplingRequest s r = .ok (addSamplingRequestCore s r) ∧
    lookupKey r.id (addSamplingRequestCore s r).1.pending =
      some (r, (addSamplingRequestCore s r).2) ∧
    recvDecision (addSamplingRequestCore s r).1 oldCh = some (.error .closed) := by
  have hlt : oldCh < s.channels.length := by
    by_contra hge
    rw [List.getElem?_eq_none (Nat.le_of_not_lt hge)] at hch
    exact Option.noConfusion hch
  have hchans : (addSamplingRequestCore s r).1.channels =
      dropSenderAt s.channels oldCh ++ [freshOneshot] := by
    show (match lookupKey r.id s.pending with
          | some (_, oldCh) => dropSenderAt s.channels oldCh
          | none => s.channels) ++ [freshOneshot] = _
    rw [hold]
  have hlen : (dropSenderAt s.channels oldCh).length = s.channels.length :=
    length_modifyChannel _ _ _
  refine ⟨rfl, by rw [addCore_snd]; exact lookup_addCore_self s r, ?_⟩
  unfold recvDecision
  rw [hchans, List.getElem?_append_left (by rw [hlen]; exact hlt)]
  unfold dropSenderAt
  rw [getElem?_modifyChannel_self _ _ _ _ hch]
  simp [oneshotRecv, hsent]

/-- Witness for the amended C2 at a concrete input. -/
theorem duplicateRegistrationOverwrites_witness :
    lookupKey "a" dupState.pending = some (dupRequestOld, 0) ∧
    dupState.channels[0]? = some freshOneshot ∧
    freshOneshot.sent = none ∧
    (addSamplingRequest dupState dupRequestNew = .ok (addSamplingRequestCore dupState dupRequestNew) ∧
      lookupKey "a" (addSamplingRequestCore dupState dupRequestNew).1.pending =
        some (dupRequestNew, (addSamplingRequestCore dupState dupRequestNew).2) ∧
      recvDecision (addSamplingRequestCore dupState dupRequestNew).1 0 =
        some (.error .closed)) := by
  refine ⟨by decide, by decide, rfl, ?_⟩
  have h := duplicateRegistrationOverwrites dupState dupRequestNew dupRequestOld 0 freshOneshot
    (by decide) (by decide) rfl
  exact h

/-- A request registered from the empty state and then rejected. -/
def rejectedRequest : SamplingRequest :=
  { id := "r1", extension_name := "e", params := { payload := "p" } }

/-- The state after registering `rejectedRequest` and resolving it with
`approved = false`. -/
def rejectedState : AppState :=
  (respondToSamplingRequest (addSamplingRequestCore emptyAppState rejectedRequest).1
    "r1" false).1

/-- C6 counterexample: in the server sampling handler, a request resolved
with `approved = false` is surfaced to the caller as an error
(`ServiceError::Cancelled`), not as a successful negative result. -/
theorem rejectionIsErrorInHandlerPath :
    recvDecision rejectedState 0 = some (.ok false) ∧
    handleCreateMessageDecision (recvDecision rejectedState 0) =
      some (.error (.cancelled (some "User rejected sampling request"))) ∧
    handleCreateMessageDecision (recvDecision rejectedState 0) ≠ some (.ok ()) := by
  decide

/-- C6 amended: a rejection is always distinguishable from every failure:
the agent sampling callback delivers it as the successful value `false`
(distinct from its channel-closed error), while the server sampling
handler surfaces it as the dedicated `Cancelled` error variant, distinct
from `UnexpectedResponse`, which covers the channel-closed, registration
and upstream failures — but in the handler path it is an error value, not
a successful result. -/
theorem rejectionDistinguishableFromFailures (s : AppState) (r : SamplingRequest) :
    samplingCallbackOutcome
      (recvDecision (respondToSamplingRequest (addSamplingRequestCore s r).1 r.id false).1
        (addSamplingRequestCore s r).2) = some (.ok false) ∧
    handleCreateMessageDecision
      (recvDecision (respondToSamplingRequest (addSamplingRequestCore s r).1 r.id false).1
        (addSamplingRequestCore s r).2) =
      some (.error (.cancelled (some "User rejected sampling request"))) ∧
    handleCreateMessageDecision (some (.error .closed)) =
      some (.error .unexpectedResponse) ∧
    (∀ reason : Option String,
      ServiceError.cancelled reason ≠ ServiceError.unexpectedResponse) := by
  have hrecv := recv_after_register_resolve s r false
  refine ⟨by rw [hrecv]; rfl, by rw [hrecv]; rfl, rfl, ?_⟩
  intro reason h
  exact ServiceError.noConfusion h

